import Mathlib

/-
Verification development for the recombination-history module of
CLASS_Cardassian (src/hyrec/history.c).

The in-repository code (rec_get_cosmoparam, rec_HubbleConstant, rec_Tmss,
rec_dTmdlna, rec_get_xe_next1, rec_get_xe_next2, rec_build_history,
energy_injection_rate) is shallowly embedded over the real numbers.
C doubles are modelled as ℝ; C `pow` with an integer literal exponent is
modelled by the monoid power, `pow` with a general real exponent by
`Real.rpow`.  Division by zero follows Lean's convention (x / 0 = 0),
which only ever matters at inputs where the C code would itself be
outside its domain.

The atomic-physics rate kernels (helium.c, hydrogen.c), the equilibrium
solvers and the spectral-history bookkeeping are files of the repository
that are not part of the specified core; following the specification they
are treated as external collaborators and modelled as parameters
(`Externals`), so every theorem below holds for all possible kernels.
-/

noncomputable section

/-- Cosmological parameter record, from the fields used by
src/hyrec/history.c (the struct declaration itself lives in a header that
only external files provide).  Field order: T0, obh2, omh2, okh2, odeh2,
w0, wa, Y, Nnueff, nH0, fHe, zstart, zend, dlna, nz, p_ann, alpha, p_dec. -/
structure REC_COSMOPARAMS where
  T0 : ℝ
  obh2 : ℝ
  omh2 : ℝ
  okh2 : ℝ
  odeh2 : ℝ
  w0 : ℝ
  wa : ℝ
  Y : ℝ
  Nnueff : ℝ
  nH0 : ℝ
  fHe : ℝ
  zstart : ℝ
  zend : ℝ
  dlna : ℝ
  nz : ℕ
  p_ann : ℝ
  alpha : ℝ
  p_dec : ℝ

/-- Modelled from the spec: `cube` comes from hyrectools.h/hyrectools.c,
which are not under src/; the spec's density formulas use the third power
of the scale factor, and every call site passes `1+z`. -/
def cube (x : ℝ) : ℝ := x * x * x

/-- Boltzmann constant in m² kg s⁻² K⁻¹, local constant `k_b` of
rec_Tmss and rec_dTmdlna (history.c lines 107, 124). -/
def k_b : ℝ := 1.3806503e-23

/-- Annihilation efficiency on the z > 2500 branch
(history.c line 377). -/
def p_ann_high (param : REC_COSMOPARAMS) : ℝ :=
  param.p_ann * Real.exp (-param.alpha * 0.838490285049671)

/-- Annihilation efficiency on the 30 < z ≤ 2500 branch
(history.c line 380). -/
def p_ann_mid (param : REC_COSMOPARAMS) (z : ℝ) : ℝ :=
  param.p_ann * Real.exp (param.alpha *
    (Real.log ((1 + z) / 2501) * Real.log ((1 + z) / 2501) - 0.838490285049671))

/-- Annihilation efficiency on the z ≤ 30 branch (history.c line 384). -/
def p_ann_low (param : REC_COSMOPARAMS) : ℝ :=
  param.p_ann * Real.exp (param.alpha *
    (Real.log (31 / 2501) * Real.log (31 / 2501) - 0.838490285049671))

/-- The piecewise annihilation parameter `p_annihilation_at_z` of
energy_injection_rate (history.c lines 376-385). -/
def p_annihilation_at_z (param : REC_COSMOPARAMS) (z : ℝ) : ℝ :=
  if 2500 < z then p_ann_high param
  else if 30 < z then p_ann_mid param z
  else p_ann_low param

/-- Exotic energy injection rate, history.c lines 366-388.
`coeff = 1.932e-10`; the C `pow` calls here have integer literal
exponents and are modelled by monoid powers. -/
def energy_injection_rate (param : REC_COSMOPARAMS) (z : ℝ) : ℝ :=
  (param.omh2 * 4.827652e-18) ^ 2 * (1 + z) ^ 6 * p_annihilation_at_z param z
    + 1.932e-10 * (1 + z) ^ 3 * param.p_dec

/-- Matter density rho_i[0] = omh2 * ainv³ (history.c line 74). -/
def rho_matter (param : REC_COSMOPARAMS) (z : ℝ) : ℝ :=
  param.omh2 * ((1 + z) * (1 + z) * (1 + z))

/-- Curvature density rho_i[1] = okh2 * ainv² (history.c line 77). -/
def rho_curv (param : REC_COSMOPARAMS) (z : ℝ) : ℝ :=
  param.okh2 * ((1 + z) * (1 + z))

/-- Dark energy density rho_i[2] (history.c line 80):
odeh2 * pow(ainv, 3(1+w0)) * exp(3 wa (log(ainv) - 1 + 1/ainv)),
with ainv = 1+z.  The C `pow` here has a general real exponent and is
modelled by `Real.rpow`. -/
def rho_DE (param : REC_COSMOPARAMS) (z : ℝ) : ℝ :=
  param.odeh2 * (1 + z) ^ (3 * (1 + param.w0)) *
    Real.exp (3 * param.wa * (Real.log (1 + z) - 1 + 1 / (1 + z)))

/-- Photon radiation density rho_i[3] = ogh2 * ainv⁴ with
ogh2 = 4.48162687719e-7 * T0⁴ (history.c lines 84-85). -/
def rho_rad (param : REC_COSMOPARAMS) (z : ℝ) : ℝ :=
  (4.48162687719e-7 * param.T0 * param.T0 * param.T0 * param.T0) *
    ((1 + z) * (1 + z) * (1 + z) * (1 + z))

/-- Neutrino density rho_i[4] = 0.227107317660239 * rho_i[3] * Nnueff
(history.c line 88). -/
def rho_nu (param : REC_COSMOPARAMS) (z : ℝ) : ℝ :=
  0.227107317660239 * rho_rad param z * param.Nnueff

/-- Total density summed in rec_HubbleConstant (history.c line 91). -/
def rho_total (param : REC_COSMOPARAMS) (z : ℝ) : ℝ :=
  rho_matter param z + rho_curv param z + rho_DE param z
    + rho_rad param z + rho_nu param z

/-- Hubble expansion rate in sec⁻¹, history.c lines 65-95:
3.2407792896393e-18 * sqrt(total density). -/
def rec_HubbleConstant (param : REC_COSMOPARAMS) (z : ℝ) : ℝ :=
  3.2407792896393e-18 * Real.sqrt (rho_total param z)

/-- Steady-state matter temperature, history.c lines 101-114.  The
argument list is that of the C function; note that `z` does not occur in
the body (exactly as in the source). -/
def rec_Tmss (xe Tr H fHe nH z energy_rate : ℝ) : ℝ :=
  Tr / (1 + H / 4.91466895548409e-22 / Tr / Tr / Tr / Tr * (1 + xe + fHe) / xe)
    + 1 / (4.91466895548409e-22 * Tr ^ 4 * xe) * 2 / (3 * k_b) * (1 + 2 * xe)
      / (3 * nH * 1e6) * energy_rate

/-- Matter temperature evolution derivative dTm/dlna, history.c
lines 120-130.  As in the source, `z` does not occur in the body. -/
def rec_dTmdlna (xe Tm Tr H fHe nH z energy_rate : ℝ) : ℝ :=
  -2 * Tm + 4.91466895548409e-22 * Tr * Tr * Tr * Tr * xe / (1 + xe + fHe)
      * (Tr - Tm) / H
    + 2 / (3 * k_b) * (1 + 2 * xe) / (3 * nH * 1e6) * energy_rate
      / (1 + xe + fHe) / H

/-- Mechanism tag passed as `func_select` to the steppers
(FUNC_HEI, FUNC_H2G, FUNC_HMLA, FUNC_PEEBLES). -/
inductive FuncSelect where
  | FUNC_HEI : FuncSelect
  | FUNC_H2G : FuncSelect
  | FUNC_HMLA : FuncSelect
  | FUNC_PEEBLES : FuncSelect
deriving DecidableEq

open FuncSelect

/-- Modelled from the spec: the AtomicRateProvider kernels, equilibrium
solvers and constants supplied by helium.c, hydrogen.c and hyrectools.c,
which are not under src/.  Each field abstracts one external function by
its numeric arguments (opaque table/buffer pointer arguments are
dropped; an in/out pointer argument becomes an input plus an extra
component of the result).  All theorems below quantify over this
structure, so they hold whatever the external code computes. -/
structure Externals where
  rec_helium_dxedt : ℝ → ℝ → ℝ → ℝ → ℝ → ℝ → ℝ
  rec_HMLA_2photon_dxedlna : ℝ → ℝ → ℝ → ℝ → ℝ → ℝ → ℝ → ℕ → ℝ → ℝ → ℝ
  rec_HMLA_dxedlna : ℝ → ℝ → ℝ → ℝ → ℝ → ℝ → ℝ → ℝ
  rec_HPeebles_dxedlna : ℝ → ℝ → ℝ → ℝ → ℝ → ℝ → ℝ → ℝ
  rec_sahaHeII : ℝ → ℝ → ℝ → ℝ → ℝ → ℝ × ℝ
  xe_PostSahaHe : ℝ → ℝ → ℝ → ℝ → ℝ → ℝ → ℝ × ℝ
  xe_PostSahaH : ℝ → ℝ → ℝ → ℕ → ℝ → ℝ → ℝ × ℝ
  rec_saha_xe_H : ℝ → ℝ → ℝ → ℝ
  kBoltz : ℝ

/-- Lagged multistep state threaded through rec_get_xe_next1 via the four
pointers z_prev, dxedlna_prev, z_prev2, dxedlna_prev2. -/
structure Step1State where
  z_prev : ℝ
  dxedlna_prev : ℝ
  z_prev2 : ℝ
  dxedlna_prev2 : ℝ

/-- Lagged multistep state threaded through rec_get_xe_next2 via the six
pointers z_prev, dxedlna_prev, dTmdlna_prev, z_prev2, dxedlna_prev2,
dTmdlna_prev2. -/
structure Step2State where
  z_prev : ℝ
  dxedlna_prev : ℝ
  dTmdlna_prev : ℝ
  z_prev2 : ℝ
  dxedlna_prev2 : ℝ
  dTmdlna_prev2 : ℝ

/-- The dxedlna computed inside rec_get_xe_next1 (history.c lines
144-163, default MODEL branch): local values Tr = T0*(1+z1),
nH = nH0*(1+z1)³, H = rec_HubbleConstant, Tm = rec_Tmss, then the
mechanism dispatch (FUNC_HEI → helium rate / H, FUNC_H2G → two-photon
rate, otherwise → HMLA rate). -/
def next1_dxedlna (ext : Externals) (param : REC_COSMOPARAMS)
    (func_select : FuncSelect) (z1 xe_in : ℝ) (iz : ℕ) : ℝ :=
  let ainv := 1 + z1
  let Tr := param.T0 * ainv
  let nH := param.nH0 * (ainv * ainv * ainv)
  let H := rec_HubbleConstant param z1
  let Tm := rec_Tmss xe_in Tr H param.fHe (nH * 1e-6) z1
    (energy_injection_rate param z1)
  if func_select = FUNC_HEI then
    ext.rec_helium_dxedt xe_in param.nH0 param.T0 param.fHe H z1 / H
  else if func_select = FUNC_H2G then
    ext.rec_HMLA_2photon_dxedlna xe_in (nH * 1e-6) H (Tm * ext.kBoltz)
      (Tr * ext.kBoltz) param.zstart param.dlna iz z1
      (energy_injection_rate param z1)
  else
    ext.rec_HMLA_dxedlna xe_in (nH * 1e-6) H (Tm * ext.kBoltz)
      (Tr * ext.kBoltz) z1 (energy_injection_rate param z1)

/-- Second-order multistep integrator for xe only, history.c lines
137-172.  Returns the written *xe_out together with the updated lagged
state (z_prev2 := old z_prev, dxedlna_prev2 := old dxedlna_prev,
z_prev := z1, dxedlna_prev := the freshly computed dxedlna). -/
def rec_get_xe_next1 (ext : Externals) (param : REC_COSMOPARAMS)
    (z1 xe_in : ℝ) (func_select : FuncSelect) (iz : ℕ)
    (s : Step1State) : ℝ × Step1State :=
  let dxedlna := next1_dxedlna ext param func_select z1 xe_in iz
  (xe_in + param.dlna * (1.25 * dxedlna - 0.25 * s.dxedlna_prev2),
   ⟨z1, dxedlna, s.z_prev, s.dxedlna_prev⟩)

/-- The dxedlna computed inside rec_get_xe_next2 (history.c lines
185-207, default MODEL branch): as in next1 but with the explicit Tm_in
and the four-way dispatch (FUNC_HEI / FUNC_H2G / FUNC_HMLA / else
Peebles). -/
def next2_dxedlna (ext : Externals) (param : REC_COSMOPARAMS)
    (func_select : FuncSelect) (z1 xe_in Tm_in : ℝ) (iz : ℕ) : ℝ :=
  let ainv := 1 + z1
  let Tr := param.T0 * ainv
  let nH := param.nH0 * (ainv * ainv * ainv)
  let H := rec_HubbleConstant param z1
  if func_select = FUNC_HEI then
    ext.rec_helium_dxedt xe_in param.nH0 param.T0 param.fHe H z1 / H
  else if func_select = FUNC_H2G then
    ext.rec_HMLA_2photon_dxedlna xe_in (nH * 1e-6) H (Tm_in * ext.kBoltz)
      (Tr * ext.kBoltz) param.zstart param.dlna iz z1
      (energy_injection_rate param z1)
  else if func_select = FUNC_HMLA then
    ext.rec_HMLA_dxedlna xe_in (nH * 1e-6) H (Tm_in * ext.kBoltz)
      (Tr * ext.kBoltz) z1 (energy_injection_rate param z1)
  else
    ext.rec_HPeebles_dxedlna xe_in (nH * 1e-6) H (Tm_in * ext.kBoltz)
      (Tr * ext.kBoltz) z1 (energy_injection_rate param z1)

/-- The dTmdlna computed inside rec_get_xe_next2 (history.c line 209). -/
def next2_dTmdlna (param : REC_COSMOPARAMS) (z1 xe_in Tm_in : ℝ) : ℝ :=
  let ainv := 1 + z1
  let Tr := param.T0 * ainv
  let nH := param.nH0 * (ainv * ainv * ainv)
  let H := rec_HubbleConstant param z1
  rec_dTmdlna xe_in Tm_in Tr H param.fHe (nH * 1e-6) z1
    (energy_injection_rate param z1)

/-- Second-order multistep integrator for xe and Tm simultaneously,
history.c lines 179-222.  Returns (*xe_out, *Tm_out, updated state). -/
def rec_get_xe_next2 (ext : Externals) (param : REC_COSMOPARAMS)
    (z1 xe_in Tm_in : ℝ) (func_select : FuncSelect) (iz : ℕ)
    (s : Step2State) : ℝ × ℝ × Step2State :=
  let dxedlna := next2_dxedlna ext param func_select z1 xe_in Tm_in iz
  let dTmdlna := next2_dTmdlna param z1 xe_in Tm_in
  (xe_in + param.dlna * (1.25 * dxedlna - 0.25 * s.dxedlna_prev2),
   Tm_in + param.dlna * (1.25 * dTmdlna - 0.25 * s.dTmdlna_prev2),
   ⟨z1, dxedlna, dTmdlna, s.z_prev, s.dxedlna_prev, s.dTmdlna_prev⟩)

/-- A run of repeated rec_get_xe_next1 calls: step n is made at redshift
`zs n` with grid index `izs n`, feeding each output xe back in as the
next input, exactly as the stage loops of rec_build_history do. -/
def next1_trace (ext : Externals) (param : REC_COSMOPARAMS)
    (func_select : FuncSelect) (zs : ℕ → ℝ) (izs : ℕ → ℕ)
    (x0 : ℝ) (s0 : Step1State) : ℕ → ℝ × Step1State
  | 0 => (x0, s0)
  | n + 1 =>
    let p := next1_trace ext param func_select zs izs x0 s0 n
    rec_get_xe_next1 ext param (zs n) p.1 func_select (izs n) p.2

/-- A run of repeated rec_get_xe_next2 calls, feeding xe and Tm back. -/
def next2_trace (ext : Externals) (param : REC_COSMOPARAMS)
    (func_select : FuncSelect) (zs : ℕ → ℝ) (izs : ℕ → ℕ)
    (x0 T0m : ℝ) (s0 : Step2State) : ℕ → ℝ × ℝ × Step2State
  | 0 => (x0, T0m, s0)
  | n + 1 =>
    let p := next2_trace ext param func_select zs izs x0 T0m s0 n
    rec_get_xe_next2 ext param (zs n) p.1 p.2.1 func_select (izs n) p.2.2

/-- Externals whose hydrogen/helium rate kernels all return the constant
k (used to exercise the integrator on a constant derivative). -/
def constKernelExt (k : ℝ) : Externals :=
  ⟨fun _ _ _ _ _ _ => k, fun _ _ _ _ _ _ _ _ _ _ => k,
   fun _ _ _ _ _ _ _ => k, fun _ _ _ _ _ _ _ => k,
   fun _ _ _ _ _ => (0, 0), fun _ _ _ _ _ _ => (0, 0),
   fun _ _ _ _ _ _ => (0, 0), fun _ _ _ => 0, 0⟩

/-- Redshift grid formula z(i) = (1+zstart)·exp(−dlna·i) − 1, as written
at each `z = (1.+param->zstart)*exp(-param->dlna*iz) - 1.;` line of
rec_build_history. -/
def grid_z (zstart dlna i : ℝ) : ℝ := (1 + zstart) * Real.exp (-dlna * i) - 1

/-- Finite-difference seed for dxedlna_prev (history.c lines 272, 310):
(xe[iz-1] - xe[iz-3]) / 2 / dlna. -/
def seed_dxedlna_prev (xe : ℕ → ℝ) (dlna : ℝ) (iz : ℕ) : ℝ :=
  (xe (iz - 1) - xe (iz - 3)) / 2 / dlna

/-- Finite-difference seed for dxedlna_prev2 (history.c lines 269, 307):
(xe[iz-2] - xe[iz-4]) / 2 / dlna. -/
def seed_dxedlna_prev2 (xe : ℕ → ℝ) (dlna : ℝ) (iz : ℕ) : ℝ :=
  (xe (iz - 2) - xe (iz - 4)) / 2 / dlna

/-- Seed for dTmdlna_prev2 at the entry of the explicit-Tm stage
(history.c lines 323-324): a direct evaluation of rec_dTmdlna at the
lagged sample (xe[iz-3], Tm[iz-3], z_prev2) — with the current z inside
the nH argument, exactly as the source has it. -/
def seed_dTmdlna_prev2 (xe Tm : ℕ → ℝ) (param : REC_COSMOPARAMS)
    (iz : ℕ) (z z_prev2 : ℝ) : ℝ :=
  rec_dTmdlna (xe (iz - 3)) (Tm (iz - 3)) (param.T0 * (1 + z_prev2))
    (rec_HubbleConstant param z_prev2) param.fHe (param.nH0 * cube (1 + z))
    z_prev2 (energy_injection_rate param z_prev2)

/-- Seed for dTmdlna_prev at the entry of the explicit-Tm stage
(history.c lines 325-326): rec_dTmdlna at (xe[iz-2], Tm[iz-2], z_prev). -/
def seed_dTmdlna_prev (xe Tm : ℕ → ℝ) (param : REC_COSMOPARAMS)
    (iz : ℕ) (z z_prev : ℝ) : ℝ :=
  rec_dTmdlna (xe (iz - 2)) (Tm (iz - 2)) (param.T0 * (1 + z_prev))
    (rec_HubbleConstant param z_prev) param.fHe (param.nH0 * cube (1 + z))
    z_prev (energy_injection_rate param z_prev)

/-- Pointwise update of a history array. -/
def upd (f : ℕ → ℝ) (i : ℕ) (v : ℝ) : ℕ → ℝ :=
  fun j => if j = i then v else f j

/-- The mutable state of rec_build_history: the two output arrays
(modelled as total functions, with a log of the indices written, in
order, to each), the running redshift z, the stage-exit scalar Delta_xe
and the six lagged multistep samples.  C reads the output arrays out of
bounds when a stage boundary is reached at iz < 4; there the ℕ
subtraction in an index clips to 0 (the C behaviour is undefined). -/
structure BuildState where
  xe : ℕ → ℝ
  Tm : ℕ → ℝ
  xeLog : List ℕ
  TmLog : List ℕ
  z : ℝ
  Delta_xe : ℝ
  z_prev : ℝ
  dxedlna_prev : ℝ
  dTmdlna_prev : ℝ
  z_prev2 : ℝ
  dxedlna_prev2 : ℝ
  dTmdlna_prev2 : ℝ

/- One C loop `for (; iz < nz && cond; iz++) body`, unrolled on the
remaining fuel nz − iz.  Returns the state and the index at which the
loop stopped.  Loop conditions compare reals, hence the classical
decidability. -/
open Classical in
def loopAux (cond : ℕ → BuildState → Prop) (body : ℕ → BuildState → BuildState) :
    ℕ → ℕ → BuildState → ℕ × BuildState
  | 0, iz, s => (iz, s)
  | fuel + 1, iz, s =>
    if cond iz s then loopAux cond body fuel (iz + 1) (body iz s) else (iz, s)

/-- A stage loop bounded by the grid length nz. -/
def stageLoop (nz : ℕ) (cond : ℕ → BuildState → Prop)
    (body : ℕ → BuildState → BuildState) (iz : ℕ) (s : BuildState) :
    ℕ × BuildState :=
  loopAux cond body (nz - iz) iz s

/-- Stage 1 continuation test (history.c line 251): Delta_xe > 1e-9. -/
def cond1 (_ : ℕ) (s : BuildState) : Prop := 1e-9 < s.Delta_xe

/-- Stage 1 body (history.c lines 252-254): He II + III Saha phase. -/
def body1 (ext : Externals) (param : REC_COSMOPARAMS) (iz : ℕ)
    (s : BuildState) : BuildState :=
  let z := grid_z param.zstart param.dlna (iz : ℝ)
  let r := ext.rec_sahaHeII param.nH0 param.T0 param.fHe z s.Delta_xe
  { s with
    z := z,
    xe := upd s.xe iz r.1,
    xeLog := s.xeLog ++ [iz],
    Tm := upd s.Tm iz (param.T0 * (1 + z)),
    TmLog := s.TmLog ++ [iz],
    Delta_xe := r.2 }

/-- Stage 2 continuation test (history.c line 260): Delta_xe < 5e-4. -/
def cond2 (_ : ℕ) (s : BuildState) : Prop := s.Delta_xe < 5e-4

/-- Stage 2 body (history.c lines 261-263): He I + II post-Saha phase. -/
def body2 (ext : Externals) (param : REC_COSMOPARAMS) (iz : ℕ)
    (s : BuildState) : BuildState :=
  let z := grid_z param.zstart param.dlna (iz : ℝ)
  let r := ext.xe_PostSahaHe param.nH0 param.T0 param.fHe
    (rec_HubbleConstant param z) z s.Delta_xe
  { s with
    z := z,
    xe := upd s.xe iz r.1,
    xeLog := s.xeLog ++ [iz],
    Tm := upd s.Tm iz (param.T0 * (1 + z)),
    TmLog := s.TmLog ++ [iz],
    Delta_xe := r.2 }

/-- The multistep seeding block run at the entry of the two
steady-state-Tm ODE stages (history.c lines 268-272 and 306-310). -/
def seedXe (param : REC_COSMOPARAMS) (iz : ℕ) (s : BuildState) : BuildState :=
  { s with
    z_prev2 := grid_z param.zstart param.dlna ((iz : ℝ) - 3),
    dxedlna_prev2 := seed_dxedlna_prev2 s.xe param.dlna iz,
    z_prev := grid_z param.zstart param.dlna ((iz : ℝ) - 2),
    dxedlna_prev := seed_dxedlna_prev s.xe param.dlna iz }

/-- Stage 3 continuation test (history.c line 276):
Delta_xe > 1e-4 or z > 1650. -/
def cond3 (_ : ℕ) (s : BuildState) : Prop := 1e-4 < s.Delta_xe ∨ 1650 < s.z

/-- Stage 3 body (history.c lines 278-288): helium recombination ODE with
Tm at its steady state.  The spectral-buffer side effect
(update_fminus_Saha) writes no output array and is not modelled. -/
def body3 (ext : Externals) (param : REC_COSMOPARAMS) (iz : ℕ)
    (s : BuildState) : BuildState :=
  let r := rec_get_xe_next1 ext param s.z (s.xe (iz - 1)) FUNC_HEI (iz - 1)
    ⟨s.z_prev, s.dxedlna_prev, s.z_prev2, s.dxedlna_prev2⟩
  let z := grid_z param.zstart param.dlna (iz : ℝ)
  let Tmv := rec_Tmss r.1 (param.T0 * (1 + z)) (rec_HubbleConstant param z)
    param.fHe (param.nH0 * cube (1 + z)) r.2.z_prev2
    (energy_injection_rate param z)
  { s with
    z := z,
    xe := upd s.xe iz r.1,
    xeLog := s.xeLog ++ [iz],
    Tm := upd s.Tm iz Tmv,
    TmLog := s.TmLog ++ [iz],
    Delta_xe := |r.1 - ext.rec_saha_xe_H param.nH0 param.T0 z|,
    z_prev := r.2.z_prev,
    dxedlna_prev := r.2.dxedlna_prev,
    z_prev2 := r.2.z_prev2,
    dxedlna_prev2 := r.2.dxedlna_prev2 }

/-- Stage 4 continuation test (history.c line 295): Delta_xe < 5e-5. -/
def cond4 (_ : ℕ) (s : BuildState) : Prop := s.Delta_xe < 5e-5

/-- Stage 4 body (history.c lines 296-300): hydrogen post-Saha phase. -/
def body4 (ext : Externals) (param : REC_COSMOPARAMS) (iz : ℕ)
    (s : BuildState) : BuildState :=
  let z := grid_z param.zstart param.dlna (iz : ℝ)
  let H := rec_HubbleConstant param z
  let r := ext.xe_PostSahaH (param.nH0 * cube (1 + z) * 1e-6) H
    (ext.kBoltz * param.T0 * (1 + z)) iz z s.Delta_xe
  let Tmv := rec_Tmss r.1 (param.T0 * (1 + z)) H param.fHe
    (param.nH0 * cube (1 + z)) s.z_prev2 (energy_injection_rate param z)
  { s with
    z := z,
    xe := upd s.xe iz r.1,
    xeLog := s.xeLog ++ [iz],
    Tm := upd s.Tm iz Tmv,
    TmLog := s.TmLog ++ [iz],
    Delta_xe := r.2 }

/-- Stage 5 continuation test (history.c line 312):
1 − Tm[iz−1]/T0/(1+z) < 5e-4 and z > 700. -/
def cond5 (param : REC_COSMOPARAMS) (iz : ℕ) (s : BuildState) : Prop :=
  1 - s.Tm (iz - 1) / param.T0 / (1 + s.z) < 5e-4 ∧ 700 < s.z

/-- Stage 5 body (history.c lines 314-317): hydrogen two-photon ODE with
Tm at its steady state. -/
def body5 (ext : Externals) (param : REC_COSMOPARAMS) (iz : ℕ)
    (s : BuildState) : BuildState :=
  let r := rec_get_xe_next1 ext param s.z (s.xe (iz - 1)) FUNC_H2G (iz - 1)
    ⟨s.z_prev, s.dxedlna_prev, s.z_prev2, s.dxedlna_prev2⟩
  let z := grid_z param.zstart param.dlna (iz : ℝ)
  let Tmv := rec_Tmss r.1 (param.T0 * (1 + z)) (rec_HubbleConstant param z)
    param.fHe (param.nH0 * cube (1 + z) * 1e-6) r.2.z_prev2
    (energy_injection_rate param z)
  { s with
    z := z,
    xe := upd s.xe iz r.1,
    xeLog := s.xeLog ++ [iz],
    Tm := upd s.Tm iz Tmv,
    TmLog := s.TmLog ++ [iz],
    z_prev := r.2.z_prev,
    dxedlna_prev := r.2.dxedlna_prev,
    z_prev2 := r.2.z_prev2,
    dxedlna_prev2 := r.2.dxedlna_prev2 }

/-- The dTm/dlna seeding block at the entry of the explicit-Tm stage
(history.c lines 323-326). -/
def seedTm (param : REC_COSMOPARAMS) (iz : ℕ) (s : BuildState) : BuildState :=
  { s with
    dTmdlna_prev2 := seed_dTmdlna_prev2 s.xe s.Tm param iz s.z s.z_prev2,
    dTmdlna_prev := seed_dTmdlna_prev s.xe s.Tm param iz s.z s.z_prev }

/-- Stage 6 continuation test (history.c line 328): z > 700. -/
def cond6 (_ : ℕ) (s : BuildState) : Prop := 700 < s.z

/-- Stage 7 continuation test (history.c line 338): z > 20. -/
def cond7 (_ : ℕ) (s : BuildState) : Prop := 20 < s.z

/-- Shared body of stages 6-8 (history.c lines 330-333, 340-343,
352-355): one rec_get_xe_next2 call writing xe[iz] and Tm[iz], then the
grid update of z.  Only the mechanism tag differs between the stages. -/
def bodyNext2 (ext : Externals) (param : REC_COSMOPARAMS)
    (func_select : FuncSelect) (iz : ℕ) (s : BuildState) : BuildState :=
  let r := rec_get_xe_next2 ext param s.z (s.xe (iz - 1)) (s.Tm (iz - 1))
    func_select (iz - 1)
    ⟨s.z_prev, s.dxedlna_prev, s.dTmdlna_prev,
     s.z_prev2, s.dxedlna_prev2, s.dTmdlna_prev2⟩
  let z := grid_z param.zstart param.dlna (iz : ℝ)
  { s with
    z := z,
    xe := upd s.xe iz r.1,
    xeLog := s.xeLog ++ [iz],
    Tm := upd s.Tm iz r.2.1,
    TmLog := s.TmLog ++ [iz],
    z_prev := r.2.2.z_prev,
    dxedlna_prev := r.2.2.dxedlna_prev,
    dTmdlna_prev := r.2.2.dTmdlna_prev,
    z_prev2 := r.2.2.z_prev2,
    dxedlna_prev2 := r.2.2.dxedlna_prev2,
    dTmdlna_prev2 := r.2.2.dTmdlna_prev2 }

/-- Replacement of the stage-exit scalar between two stage loops
(history.c lines 249, 258, 274, 293: `Delta_xe = ...;`). -/
def resetDelta (v : ℝ) (s : BuildState) : BuildState :=
  { s with Delta_xe := v }

/-- The initial state of the stage machine: z = zstart (line 245) and
Delta_xe = 1 (line 249); the output arrays and the lagged samples are
uninitialised in C until written and are modelled as 0. -/
def bh_init (param : REC_COSMOPARAMS) : BuildState :=
  ⟨fun _ => 0, fun _ => 0, [], [], param.zstart, 1, 0, 0, 0, 0, 0, 0⟩

/-- Stage machine after stage 1 (He II + III Saha, lines 251-255). -/
def bh_stage1 (ext : Externals) (param : REC_COSMOPARAMS) : ℕ × BuildState :=
  stageLoop param.nz cond1 (body1 ext param) 0 (bh_init param)

/-- Stage machine after stage 2 (He I + II post-Saha, lines 258-264). -/
def bh_stage2 (ext : Externals) (param : REC_COSMOPARAMS) : ℕ × BuildState :=
  stageLoop param.nz cond2 (body2 ext param) (bh_stage1 ext param).1
    (resetDelta 0 (bh_stage1 ext param).2)

/-- Stage machine after stage 3 (He ODE with steady-state Tm,
lines 268-289: the xe-derivative seeding block, Delta_xe = 1, loop). -/
def bh_stage3 (ext : Externals) (param : REC_COSMOPARAMS) : ℕ × BuildState :=
  stageLoop param.nz cond3 (body3 ext param) (bh_stage2 ext param).1
    (resetDelta 1 (seedXe param (bh_stage2 ext param).1 (bh_stage2 ext param).2))

/-- Stage machine after stage 4 (H post-Saha, lines 293-301). -/
def bh_stage4 (ext : Externals) (param : REC_COSMOPARAMS) : ℕ × BuildState :=
  stageLoop param.nz cond4 (body4 ext param) (bh_stage3 ext param).1
    (resetDelta 0 (bh_stage3 ext param).2)

/-- Stage machine after stage 5 (H two-photon ODE with steady-state Tm,
lines 306-318: the xe-derivative seeding block, then the loop). -/
def bh_stage5 (ext : Externals) (param : REC_COSMOPARAMS) : ℕ × BuildState :=
  stageLoop param.nz (cond5 param) (body5 ext param) (bh_stage4 ext param).1
    (seedXe param (bh_stage4 ext param).1 (bh_stage4 ext param).2)

/-- Stage machine after stage 6 (H two-photon ODE with explicit Tm,
lines 323-334: the dTm/dlna seeding block, then the loop). -/
def bh_stage6 (ext : Externals) (param : REC_COSMOPARAMS) : ℕ × BuildState :=
  stageLoop param.nz cond6 (bodyNext2 ext param FUNC_H2G) (bh_stage5 ext param).1
    (seedTm param (bh_stage5 ext param).1 (bh_stage5 ext param).2)

/-- Stage machine after stage 7 (simplified H ODE, lines 338-344). -/
def bh_stage7 (ext : Externals) (param : REC_COSMOPARAMS) : ℕ × BuildState :=
  stageLoop param.nz cond7 (bodyNext2 ext param FUNC_HMLA)
    (bh_stage6 ext param).1 (bh_stage6 ext param).2

/-- The recombination stage machine, history.c lines 228-364: eight
stage loops run in sequence over one advancing index (the last loop,
lines 350-356, has no physical exit condition).  Returns the final loop
index together with the final state.  The spectral-history buffers
(lines 239-242, 359-362) hold no claim-relevant data and are not
modelled. -/
def rec_build_history (ext : Externals) (param : REC_COSMOPARAMS) :
    ℕ × BuildState :=
  stageLoop param.nz (fun _ _ => True) (bodyNext2 ext param FUNC_PEEBLES)
    (bh_stage7 ext param).1 (bh_stage7 ext param).2

/-- Grid length formula of rec_get_cosmoparam (history.c line 56):
(long) floor(2 + log((1+zstart)/(1+zend)) / dlna), as an integer. -/
def nz_formula (zstart zend dlna : ℝ) : ℤ :=
  ⌊2 + Real.log ((1 + zstart) / (1 + zend)) / dlna⌋

/-- The nine scalars rec_get_cosmoparam reads from its input stream, in
reading order (history.c lines 31-46). -/
structure CosmoInputs where
  T0 : ℝ
  obh2 : ℝ
  omh2 : ℝ
  okh2 : ℝ
  odeh2 : ℝ
  w0 : ℝ
  wa : ℝ
  Y : ℝ
  Nnueff : ℝ

/-- Construction of the cosmological parameter record,
rec_get_cosmoparam (history.c lines 28-59): the nine inputs are stored
verbatim, nH0 and fHe are derived (lines 48-49), the grid constants are
fixed (zstart = 8000, zend = 0, dlna = 8.49e-5, lines 53-55) and nz is
derived (line 56).  The injection parameters p_ann, alpha, p_dec are not
touched by this function (its caller sets them) and are passed through.
No input value is checked; the function cannot fail. -/
def rec_get_cosmoparam (inp : CosmoInputs) (p_ann alpha p_dec : ℝ) :
    REC_COSMOPARAMS :=
  ⟨inp.T0, inp.obh2, inp.omh2, inp.okh2, inp.odeh2, inp.w0, inp.wa, inp.Y,
   inp.Nnueff,
   11.223846333047 * inp.obh2 * (1 - inp.Y),
   inp.Y / (1 - inp.Y) / 3.97153,
   8000, 0, 8.49e-5,
   (nz_formula 8000 0 8.49e-5).toNat,
   p_ann, alpha, p_dec⟩

/-- Modelled from the spec (§7 Error handling): the validating
constructor the specification describes, which "must validate these
preconditions at construction of CosmologyParameters and fail with a
configuration error (not a silent NaN) if violated": all density
parameters ≥ 0, T0 > 0, Y ∈ [0,1), and nz > 4.  Stated over Option to
compare with the (infallible) source constructor. -/
def rec_get_cosmoparam_spec (inp : CosmoInputs) (p_ann alpha p_dec : ℝ) :
    Option REC_COSMOPARAMS :=
  if 0 ≤ inp.obh2 ∧ 0 ≤ inp.omh2 ∧ 0 ≤ inp.okh2 ∧ 0 ≤ inp.odeh2 ∧
     0 < inp.T0 ∧ 0 ≤ inp.Y ∧ inp.Y < 1 ∧
     4 < (rec_get_cosmoparam inp p_ann alpha p_dec).nz then
    some (rec_get_cosmoparam inp p_ann alpha p_dec)
  else none

/-- Zero-valued external kernels (all rates and solver outputs 0). -/
def trivialExternals : Externals :=
  ⟨fun _ _ _ _ _ _ => 0, fun _ _ _ _ _ _ _ _ _ _ => 0,
   fun _ _ _ _ _ _ _ => 0, fun _ _ _ _ _ _ _ => 0,
   fun _ _ _ _ _ => (0, 0), fun _ _ _ _ _ _ => (0, 0),
   fun _ _ _ _ _ _ => (0, 0), fun _ _ _ => 0, 0⟩

/-- The all-zero parameter record with grid length 5 (witness input for
the stage-machine coverage theorem). -/
def paramNz5 : REC_COSMOPARAMS :=
  ⟨0, 0, 0, 0, 0, 0, 0, 0, 0, 0, 0, 0, 0, 0, 5, 0, 0, 0⟩

/-- Parameter record with odeh2 = 1, w0 = −1, wa = 1 and every other
real field 0 (isolates the dark-energy density). -/
def paramDE : REC_COSMOPARAMS :=
  ⟨0, 0, 0, 0, 1, -1, 1, 0, 0, 0, 0, 0, 0, 0, 0, 0, 0, 0⟩

/-- Parameter record with every density parameter 1 and w0 = −1, wa = 0
(witness input for the Hubble-rate nonnegativity theorem). -/
def paramOnes : REC_COSMOPARAMS :=
  ⟨1, 1, 1, 1, 1, -1, 0, 0, 1, 0, 0, 0, 0, 0, 0, 0, 0, 0⟩

/-- Input record violating every spec precondition: T0 = −1 ≤ 0,
negative densities, Y = 2 ∉ [0,1). -/
def badInputs : CosmoInputs :=
  ⟨-1, -1, -1, -1, -1, 0, 0, 2, -1⟩

/-- The all-zero parameter record with dlna = 1 (concrete input for
constant-derivative runs). -/
def paramDlna1 : REC_COSMOPARAMS :=
  ⟨0, 0, 0, 0, 0, 0, 0, 0, 0, 0, 0, 0, 0, 1, 0, 0, 0, 0⟩

/-- The constant-one history array. -/
def onesArr : ℕ → ℝ := fun _ => 1

/-- A non-degenerate parameter record: T0 = 1, omh2 = 1, nH0 = 1,
dlna = 1 and no energy injection (p_ann = p_dec = 0), so the Hubble
rate and the hydrogen density are strictly positive and the injection
rate is exactly zero. -/
def paramC2 : REC_COSMOPARAMS :=
  ⟨1, 0, 1, 0, 0, 0, 0, 0, 0, 1, 0, 0, 0, 1, 0, 0, 0, 0⟩

/-- History array with entry 3 at index 2 and 1 everywhere else. -/
def TmC2 : ℕ → ℝ := fun n => if n = 2 then 3 else 1

/-- After one more step of a next1 run, the prev slot holds the redshift
and the derivative of the step just made. -/
theorem next1_trace_prev (ext : Externals) (param : REC_COSMOPARAMS)
    (fs : FuncSelect) (zs : ℕ → ℝ) (izs : ℕ → ℕ) (x0 : ℝ)
    (s0 : Step1State) (n : ℕ) :
    (next1_trace ext param fs zs izs x0 s0 (n + 1)).2.dxedlna_prev
      = next1_dxedlna ext param fs (zs n)
          (next1_trace ext param fs zs izs x0 s0 n).1 (izs n) := by
  simp [next1_trace, rec_get_xe_next1]

/-- After one more step of a next2 run, the prev slots hold the two
derivatives of the step just made. -/
theorem next2_trace_prev (ext : Externals) (param : REC_COSMOPARAMS)
    (fs : FuncSelect) (zs : ℕ → ℝ) (izs : ℕ → ℕ) (x0 T0m : ℝ)
    (s0 : Step2State) (n : ℕ) :
    (next2_trace ext param fs zs izs x0 T0m s0 (n + 1)).2.2.dxedlna_prev
      = next2_dxedlna ext param fs (zs n)
          (next2_trace ext param fs zs izs x0 T0m s0 n).1
          (next2_trace ext param fs zs izs x0 T0m s0 n).2.1 (izs n)
    ∧ (next2_trace ext param fs zs izs x0 T0m s0 (n + 1)).2.2.dTmdlna_prev
      = next2_dTmdlna param (zs n)
          (next2_trace ext param fs zs izs x0 T0m s0 n).1
          (next2_trace ext param fs zs izs x0 T0m s0 n).2.1 := by
  constructor <;> simp [next2_trace, rec_get_xe_next2]

/-- C1: every multistep update writes
y + dlna·(1.25·f_n − 0.25·f_{n−2}): rec_get_xe_next1 writes xe_in +
dlna·(1.25·dxedlna − 0.25·dxedlna_prev2), rec_get_xe_next2 applies the
same formula to xe with dxe/dlna and to Tm with dTm/dlna, and in any run
of either stepper the prev2 slot used at step n+2 is exactly the
derivative that was evaluated at step n, i.e. two steps back. -/
theorem C1_multistep_update_formula :
    (∀ (ext : Externals) (param : REC_COSMOPARAMS) (fs : FuncSelect)
       (z1 xe_in : ℝ) (iz : ℕ) (s : Step1State),
      (rec_get_xe_next1 ext param z1 xe_in fs iz s).1
        = xe_in + param.dlna *
            (1.25 * next1_dxedlna ext param fs z1 xe_in iz
              - 0.25 * s.dxedlna_prev2))
    ∧ (∀ (ext : Externals) (param : REC_COSMOPARAMS) (fs : FuncSelect)
       (z1 xe_in Tm_in : ℝ) (iz : ℕ) (s : Step2State),
      (rec_get_xe_next2 ext param z1 xe_in Tm_in fs iz s).1
        = xe_in + param.dlna *
            (1.25 * next2_dxedlna ext param fs z1 xe_in Tm_in iz
              - 0.25 * s.dxedlna_prev2)
      ∧ (rec_get_xe_next2 ext param z1 xe_in Tm_in fs iz s).2.1
        = Tm_in + param.dlna *
            (1.25 * next2_dTmdlna param z1 xe_in Tm_in
              - 0.25 * s.dTmdlna_prev2))
    ∧ (∀ (ext : Externals) (param : REC_COSMOPARAMS) (fs : FuncSelect)
       (zs : ℕ → ℝ) (izs : ℕ → ℕ) (x0 : ℝ) (s0 : Step1State) (n : ℕ),
      (next1_trace ext param fs zs izs x0 s0 (n + 2)).2.dxedlna_prev2
        = next1_dxedlna ext param fs (zs n)
            (next1_trace ext param fs zs izs x0 s0 n).1 (izs n))
    ∧ (∀ (ext : Externals) (param : REC_COSMOPARAMS) (fs : FuncSelect)
       (zs : ℕ → ℝ) (izs : ℕ → ℕ) (x0 T0m : ℝ) (s0 : Step2State) (n : ℕ),
      (next2_trace ext param fs zs izs x0 T0m s0 (n + 2)).2.2.dxedlna_prev2
        = next2_dxedlna ext param fs (zs n)
            (next2_trace ext param fs zs izs x0 T0m s0 n).1
            (next2_trace ext param fs zs izs x0 T0m s0 n).2.1 (izs n)
      ∧ (next2_trace ext param fs zs izs x0 T0m s0 (n + 2)).2.2.dTmdlna_prev2
        = next2_dTmdlna param (zs n)
            (next2_trace ext param fs zs izs x0 T0m s0 n).1
            (next2_trace ext param fs zs izs x0 T0m s0 n).2.1) := by
  refine ⟨fun ext param fs z1 xe_in iz s => rfl,
          fun ext param fs z1 xe_in Tm_in iz s => ⟨rfl, rfl⟩, ?_, ?_⟩
  · intro ext param fs zs izs x0 s0 n
    rw [show n + 2 = (n + 1) + 1 by ring]
    simp only [next1_trace, rec_get_xe_next1]
  · intro ext param fs zs izs x0 T0m s0 n
    rw [show n + 2 = (n + 1) + 1 by ring]
    constructor
    · simp only [next2_trace, rec_get_xe_next2]
    · simp only [next2_trace, rec_get_xe_next2]

/-- C9: rec_Tmss does not depend on its redshift argument: any two
redshift values give identical results (the body never reads z), so in
particular the lagged z_prev2 passed as that argument in stages 3 and 4
of rec_build_history has no effect on the computed Tm. -/
theorem C9_Tmss_independent_of_z (xe Tr H fHe nH z zp energy_rate : ℝ) :
    rec_Tmss xe Tr H fHe nH z energy_rate
      = rec_Tmss xe Tr H fHe nH zp energy_rate := rfl

/-- The next1 dispatch under constant kernels returns the constant. -/
theorem next1_dxedlna_const (param : REC_COSMOPARAMS) (k z1 x : ℝ) (iz : ℕ) :
    next1_dxedlna (constKernelExt k) param FUNC_HMLA z1 x iz = k := rfl

/-- Invariant of a constant-derivative next1 run: both lagged slots stay
at k and the state value grows linearly. -/
theorem next1_trace_const (param : REC_COSMOPARAMS) (k x0 : ℝ)
    (zs : ℕ → ℝ) (izs : ℕ → ℕ) (s0 : Step1State)
    (h1 : s0.dxedlna_prev = k) (h2 : s0.dxedlna_prev2 = k) (n : ℕ) :
    (next1_trace (constKernelExt k) param FUNC_HMLA zs izs x0 s0 n).2.dxedlna_prev = k
    ∧ (next1_trace (constKernelExt k) param FUNC_HMLA zs izs x0 s0 n).2.dxedlna_prev2 = k
    ∧ (next1_trace (constKernelExt k) param FUNC_HMLA zs izs x0 s0 n).1
        = x0 + k * n * param.dlna := by
  induction n with
  | zero => simpa [next1_trace] using ⟨h1, h2⟩
  | succ n ih =>
    refine ⟨?_, ?_, ?_⟩
    · simp [next1_trace, rec_get_xe_next1, next1_dxedlna_const]
    · simp only [next1_trace, rec_get_xe_next1]
      exact ih.1
    · simp only [next1_trace, rec_get_xe_next1, next1_dxedlna_const]
      rw [ih.2.1, ih.2.2]
      push_cast
      ring

/-- C8: a multistep step whose two derivative samples both equal k gives
step(c, k, k, dlna) = c + k·dlna, and a run of n such steps from y0 with
a constant derivative k (constant rate kernels, lagged slots seeded at
k) yields exactly y0 + k·n·dlna. -/
theorem C8_constant_derivative_exact (param : REC_COSMOPARAMS) (k x0 : ℝ)
    (zs : ℕ → ℝ) (izs : ℕ → ℕ) (s0 : Step1State)
    (h1 : s0.dxedlna_prev = k) (h2 : s0.dxedlna_prev2 = k) :
    (∀ (c z1 : ℝ) (iz : ℕ) (s : Step1State), s.dxedlna_prev2 = k →
      (rec_get_xe_next1 (constKernelExt k) param z1 c FUNC_HMLA iz s).1
        = c + k * param.dlna)
    ∧ ∀ n : ℕ,
      (next1_trace (constKernelExt k) param FUNC_HMLA zs izs x0 s0 n).1
        = x0 + k * n * param.dlna := by
  constructor
  · intro c z1 iz s hs
    simp only [rec_get_xe_next1, next1_dxedlna_const, hs]
    ring
  · intro n
    exact (next1_trace_const param k x0 zs izs s0 h1 h2 n).2.2

/-- Witness for C8 at a concrete run: three constant-derivative steps
with k = 1 and dlna = 1 advance the state from 0 to exactly 3. -/
theorem C8_constant_derivative_exact_witness :
    (⟨0, 1, 0, 1⟩ : Step1State).dxedlna_prev = 1
    ∧ (⟨0, 1, 0, 1⟩ : Step1State).dxedlna_prev2 = 1
    ∧ (next1_trace (constKernelExt 1) paramDlna1 FUNC_HMLA
        (fun _ => 0) (fun _ => 0) 0 ⟨0, 1, 0, 1⟩ 3).1
        = 0 + 1 * (3 : ℕ) * paramDlna1.dlna :=
  ⟨rfl, rfl,
   (C8_constant_derivative_exact paramDlna1 1 0 (fun _ => 0) (fun _ => 0)
     ⟨0, 1, 0, 1⟩ rfl rfl).2 3⟩

/-- C5 (amended): for z > −1 the dark-energy density of
rec_HubbleConstant equals the standard CPL form
odeh2 · a^(−3(1+w0+wa)) · exp(−3·wa·(1−a)) with a = 1/(1+z); the code's
factor is exp(3·wa·(log(1+z) − 1 + 1/(1+z))), not exp(3·wa·ln a). -/
theorem C5_dark_energy_CPL (param : REC_COSMOPARAMS) (z : ℝ)
    (hz : -1 < z) :
    rho_DE param z
      = param.odeh2
        * (1 / (1 + z)) ^ (-(3 * (1 + param.w0 + param.wa)))
        * Real.exp (-(3 * param.wa) * (1 - 1 / (1 + z))) := by
  have h1 : (0 : ℝ) < 1 + z := by linarith
  have hr : (1 / (1 + z)) ^ (-(3 * (1 + param.w0 + param.wa)))
      = (1 + z) ^ (3 * (1 + param.w0 + param.wa)) := by
    rw [one_div, Real.inv_rpow h1.le, Real.rpow_neg h1.le, inv_inv]
  have hE : (3 * (1 + param.w0 + param.wa) : ℝ)
      = 3 * (1 + param.w0) + 3 * param.wa := by ring
  have hx : Real.exp (3 * param.wa * (Real.log (1 + z) - 1 + 1 / (1 + z)))
      = Real.exp (Real.log (1 + z) * (3 * param.wa))
        * Real.exp (-(3 * param.wa) * (1 - 1 / (1 + z))) := by
    rw [← Real.exp_add]
    congr 1
    ring
  simp only [rho_DE]
  rw [hx, hr, hE, Real.rpow_add h1, Real.rpow_def_of_pos h1 (3 * param.wa)]
  ring

/-- Witness for C5's amended theorem at param = paramDE, z = 0. -/
theorem C5_dark_energy_CPL_witness :
    (-1 : ℝ) < 0
    ∧ rho_DE paramDE 0
      = paramDE.odeh2
        * (1 / (1 + (0 : ℝ))) ^ (-(3 * (1 + paramDE.w0 + paramDE.wa)))
        * Real.exp (-(3 * paramDE.wa) * (1 - 1 / (1 + (0 : ℝ)))) :=
  ⟨by norm_num, C5_dark_energy_CPL paramDE 0 (by norm_num)⟩

/-- Counterexample to C5 as stated: at odeh2 = 1, w0 = −1, wa = 1 and
z = e − 1, the code's dark-energy density is exp(3/e) while the claimed
formula odeh2 · a^(−3(1+w0)) · exp(3·wa·ln a) gives exp(−3). -/
theorem C5_claim_false_at_e_minus_1 :
    rho_DE paramDE (Real.exp 1 - 1)
      ≠ paramDE.odeh2
        * (1 / (1 + (Real.exp 1 - 1))) ^ (-(3 * (1 + paramDE.w0)))
        * Real.exp (3 * paramDE.wa * Real.log (1 / (1 + (Real.exp 1 - 1)))) := by
  have h1 : (1 : ℝ) + (Real.exp 1 - 1) = Real.exp 1 := by ring
  have he : (0 : ℝ) < Real.exp 1 := Real.exp_pos 1
  simp only [rho_DE, paramDE, h1]
  norm_num
  intro hcon
  have hpos : (0 : ℝ) < 3 * (Real.exp 1)⁻¹ := by positivity
  linarith

/-- C2 (amended): at the entries of the two steady-state-Tm ODE stages
(stages 3 and 5) the lagged xe-derivative samples are seeded by the
claimed centred finite differences, (xe[i−1]−xe[i−3])/(2·dlna) and
(xe[i−2]−xe[i−4])/(2·dlna), with the lagged redshifts taken from the
grid formula; but at the explicit-Tm stage entry (stage 6) the lagged
Tm-derivative samples are produced by evaluating rec_dTmdlna directly at
the lagged samples (xe[i−2], Tm[i−2], z_prev) and (xe[i−3], Tm[i−3],
z_prev2), not by finite differences over Tm_output. -/
theorem C2_seed_formulas (xe Tm : ℕ → ℝ) (dlna : ℝ) (iz : ℕ)
    (param : REC_COSMOPARAMS) (z z_prev z_prev2 : ℝ) (s : BuildState) :
    seed_dxedlna_prev xe dlna iz = (xe (iz - 1) - xe (iz - 3)) / (2 * dlna)
    ∧ seed_dxedlna_prev2 xe dlna iz = (xe (iz - 2) - xe (iz - 4)) / (2 * dlna)
    ∧ (seedXe param iz s).z_prev = grid_z param.zstart param.dlna ((iz : ℝ) - 2)
    ∧ (seedXe param iz s).z_prev2 = grid_z param.zstart param.dlna ((iz : ℝ) - 3)
    ∧ (seedXe param iz s).dxedlna_prev = seed_dxedlna_prev s.xe param.dlna iz
    ∧ (seedXe param iz s).dxedlna_prev2 = seed_dxedlna_prev2 s.xe param.dlna iz
    ∧ seed_dTmdlna_prev xe Tm param iz z z_prev
        = rec_dTmdlna (xe (iz - 2)) (Tm (iz - 2)) (param.T0 * (1 + z_prev))
            (rec_HubbleConstant param z_prev) param.fHe
            (param.nH0 * cube (1 + z)) z_prev
            (energy_injection_rate param z_prev)
    ∧ seed_dTmdlna_prev2 xe Tm param iz z z_prev2
        = rec_dTmdlna (xe (iz - 3)) (Tm (iz - 3)) (param.T0 * (1 + z_prev2))
            (rec_HubbleConstant param z_prev2) param.fHe
            (param.nH0 * cube (1 + z)) z_prev2
            (energy_injection_rate param z_prev2)
    ∧ (seedTm param iz s).dTmdlna_prev
        = seed_dTmdlna_prev s.xe s.Tm param iz s.z s.z_prev
    ∧ (seedTm param iz s).dTmdlna_prev2
        = seed_dTmdlna_prev2 s.xe s.Tm param iz s.z s.z_prev2 := by
  refine ⟨?_, ?_, rfl, rfl, rfl, rfl, rfl, rfl, rfl, rfl⟩
  · simp [seed_dxedlna_prev, div_div]
  · simp [seed_dxedlna_prev2, div_div]

/-- Counterexample to C2 as stated, at a non-degenerate cosmology
(positive Hubble rate, positive hydrogen density, zero injection): with
xe ≡ 1, Tm = (1, 1, 3, 1, …), T0 = 1 and dlna = 1 at iz = 4,
z = z_prev2 = 0, the stage-6 seed is rec_dTmdlna at the lagged state
(xe[1], Tm[1]) and equals exactly −2 (the Compton term vanishes because
Tr = Tm[1] = 1 and the injection term because the rate is 0, with no
division by zero anywhere), while the finite-difference pattern
(Tm[i−2]−Tm[i−4])/(2·dlna) = (3−1)/2 = 1. -/
theorem C2_stage6_seed_not_finite_difference :
    seed_dTmdlna_prev2 onesArr TmC2 paramC2 4 0 0
      ≠ (TmC2 (4 - 2) - TmC2 (4 - 4)) / (2 * paramC2.dlna) := by
  have her : energy_injection_rate paramC2 0 = 0 := by
    norm_num [energy_injection_rate, p_annihilation_at_z, p_ann_low, paramC2]
  simp only [seed_dTmdlna_prev2, rec_dTmdlna, onesArr, TmC2, her]
  norm_num [paramC2, cube]

/-- Lower bound used for the grid length: log 8001 > 1, because
e < 3 < 8001. -/
theorem one_lt_log_8001 : (1 : ℝ) < Real.log 8001 := by
  have h : Real.exp 1 < 8001 := by
    calc Real.exp 1 < 2.7182818286 := Real.exp_one_lt_d9
      _ < 8001 := by norm_num
  calc (1 : ℝ) = Real.log (Real.exp 1) := (Real.log_exp 1).symm
    _ < Real.log 8001 := Real.log_lt_log (Real.exp_pos 1) h

/-- C7 (amended): rec_get_cosmoparam performs no validation at all: for
every input (valid or not) it simply stores the nine scalars, derives
nH0 and fHe, fixes the grid constants and computes nz; it never signals
a configuration error, and the derived nz (computed from the fixed
constants zstart = 8000, zend = 0, dlna = 8.49e-5) always exceeds 4, so
an nz ≤ 4 rejection can never arise. -/
theorem C7_construction_is_total (inp : CosmoInputs) (p_ann alpha p_dec : ℝ) :
    (rec_get_cosmoparam inp p_ann alpha p_dec).T0 = inp.T0
    ∧ (rec_get_cosmoparam inp p_ann alpha p_dec).Y = inp.Y
    ∧ (rec_get_cosmoparam inp p_ann alpha p_dec).omh2 = inp.omh2
    ∧ (rec_get_cosmoparam inp p_ann alpha p_dec).nH0
        = 11.223846333047 * inp.obh2 * (1 - inp.Y)
    ∧ (rec_get_cosmoparam inp p_ann alpha p_dec).fHe
        = inp.Y / (1 - inp.Y) / 3.97153
    ∧ 4 < (rec_get_cosmoparam inp p_ann alpha p_dec).nz := by
  refine ⟨rfl, rfl, rfl, rfl, rfl, ?_⟩
  show 4 < (nz_formula 8000 0 8.49e-5).toNat
  have hlog := one_lt_log_8001
  have harg : Real.log ((1 + (8000 : ℝ)) / (1 + 0)) = Real.log 8001 := by
    norm_num
  have hx : (3 : ℝ) ≤ Real.log 8001 / 8.49e-5 := by
    rw [le_div_iff₀ (by norm_num : (0 : ℝ) < 8.49e-5)]
    linarith
  have hfl : (5 : ℤ) ≤ nz_formula 8000 0 8.49e-5 := by
    rw [nz_formula, harg, Int.le_floor]
    push_cast
    linarith
  omega

/-- Counterexample to C7 as stated: on an input violating every
precondition (T0 = −1, negative densities, Y = 2) the spec's validating
constructor fails, but the source constructor succeeds and stores the
invalid values verbatim. -/
theorem C7_no_validation_in_code :
    rec_get_cosmoparam_spec badInputs 0 0 0 = none
    ∧ (rec_get_cosmoparam badInputs 0 0 0).T0 = -1
    ∧ (rec_get_cosmoparam badInputs 0 0 0).Y = 2 := by
  refine ⟨?_, rfl, rfl⟩
  rw [rec_get_cosmoparam_spec, if_neg]
  intro h
  have := h.1
  norm_num [badInputs] at this

/-- C10: for z > −1 and nonnegative density parameters each of the five
component densities of rec_HubbleConstant is nonnegative, hence the
argument of the square root is nonnegative and the returned Hubble rate
is a nonnegative real number. -/
theorem C10_hubble_rate_nonneg (param : REC_COSMOPARAMS) (z : ℝ)
    (hz : -1 < z) (hom : 0 ≤ param.omh2) (hok : 0 ≤ param.okh2)
    (hode : 0 ≤ param.odeh2) (hT : 0 ≤ param.T0) (hN : 0 ≤ param.Nnueff) :
    0 ≤ rho_matter param z ∧ 0 ≤ rho_curv param z ∧ 0 ≤ rho_DE param z
    ∧ 0 ≤ rho_rad param z ∧ 0 ≤ rho_nu param z ∧ 0 ≤ rho_total param z
    ∧ 0 ≤ rec_HubbleConstant param z := by
  have h1 : (0 : ℝ) ≤ 1 + z := by linarith
  have hm : 0 ≤ rho_matter param z :=
    mul_nonneg hom (mul_nonneg (mul_nonneg h1 h1) h1)
  have hc : 0 ≤ rho_curv param z := mul_nonneg hok (mul_nonneg h1 h1)
  have hd : 0 ≤ rho_DE param z :=
    mul_nonneg (mul_nonneg hode (Real.rpow_nonneg h1 _)) (Real.exp_pos _).le
  have hT4 : (0 : ℝ) ≤ 4.48162687719e-7 * param.T0 * param.T0 * param.T0 * param.T0 :=
    mul_nonneg (mul_nonneg (mul_nonneg (mul_nonneg (by norm_num) hT) hT) hT) hT
  have hr : 0 ≤ rho_rad param z :=
    mul_nonneg hT4 (mul_nonneg (mul_nonneg (mul_nonneg h1 h1) h1) h1)
  have hn : 0 ≤ rho_nu param z :=
    mul_nonneg (mul_nonneg (by norm_num) hr) hN
  have ht : 0 ≤ rho_total param z :=
    add_nonneg (add_nonneg (add_nonneg (add_nonneg hm hc) hd) hr) hn
  exact ⟨hm, hc, hd, hr, hn, ht,
    mul_nonneg (by norm_num) (Real.sqrt_nonneg _)⟩

/-- Witness for C10 at param = paramOnes, z = 0. -/
theorem C10_hubble_rate_nonneg_witness :
    (-1 : ℝ) < 0 ∧ 0 ≤ paramOnes.omh2 ∧ 0 ≤ paramOnes.okh2
    ∧ 0 ≤ paramOnes.odeh2 ∧ 0 ≤ paramOnes.T0 ∧ 0 ≤ paramOnes.Nnueff
    ∧ 0 ≤ rho_total paramOnes 0 ∧ 0 ≤ rec_HubbleConstant paramOnes 0 := by
  have h := C10_hubble_rate_nonneg paramOnes 0 (by norm_num)
    (by norm_num [paramOnes]) (by norm_num [paramOnes])
    (by norm_num [paramOnes]) (by norm_num [paramOnes])
    (by norm_num [paramOnes])
  exact ⟨by norm_num, by norm_num [paramOnes], by norm_num [paramOnes],
    by norm_num [paramOnes], by norm_num [paramOnes], by norm_num [paramOnes],
    h.2.2.2.2.2.1, h.2.2.2.2.2.2⟩

/-- Bounds on log 8001 tight enough to pin down
⌊log 8001 / 8.49e-5⌋ = 105857: note 105857·8.49e-5 = 8.9872593 and
105858·8.49e-5 = 8.9873442. -/
theorem log_8001_bounds :
    8.9872593 < Real.log 8001 ∧ Real.log 8001 < 8.9873442 := by
  have h8 : (0 : ℝ) < 8001 := by norm_num
  constructor
  · rw [Real.lt_log_iff_exp_lt h8,
      show (8.9872593 : ℝ) = 9 - 0.0127407 by norm_num,
      Real.exp_sub, div_lt_iff₀ (Real.exp_pos _)]
    have hU9 : Real.exp 9 < 2.7182818286 ^ (9 : ℕ) := by
      have h : Real.exp 9 = Real.exp 1 ^ (9 : ℕ) := by
        rw [← Real.exp_nat_mul]; norm_num
      rw [h]
      exact pow_lt_pow_left₀ Real.exp_one_lt_d9 (Real.exp_pos 1).le (by norm_num)
    have hL : ((1 : ℝ) + 0.0127407 / 4) ^ (4 : ℕ) ≤ Real.exp 0.0127407 := by
      have ha : (1 : ℝ) + 0.0127407 / 4 ≤ Real.exp (0.0127407 / 4) := by
        have := Real.add_one_le_exp ((0.0127407 : ℝ) / 4)
        linarith
      have hpow : ((1 : ℝ) + 0.0127407 / 4) ^ (4 : ℕ)
          ≤ Real.exp (0.0127407 / 4) ^ (4 : ℕ) :=
        pow_le_pow_left₀ (by norm_num) ha 4
      have he : Real.exp ((0.0127407 : ℝ) / 4) ^ (4 : ℕ) = Real.exp 0.0127407 := by
        rw [← Real.exp_nat_mul]; norm_num
      rw [he] at hpow
      exact hpow
    calc Real.exp 9 < 2.7182818286 ^ (9 : ℕ) := hU9
      _ ≤ 8001 * (((1 : ℝ) + 0.0127407 / 4) ^ (4 : ℕ)) := by norm_num
      _ ≤ 8001 * Real.exp 0.0127407 := by nlinarith [hL]
  · rw [Real.log_lt_iff_lt_exp h8,
      show (8.9873442 : ℝ) = 9 - 0.0126558 by norm_num,
      Real.exp_sub, lt_div_iff₀ (Real.exp_pos _)]
    have hL9 : (2.7182818283 : ℝ) ^ (9 : ℕ) < Real.exp 9 := by
      have h : Real.exp 9 = Real.exp 1 ^ (9 : ℕ) := by
        rw [← Real.exp_nat_mul]; norm_num
      rw [h]
      exact pow_lt_pow_left₀ Real.exp_one_gt_d9 (by norm_num) (by norm_num)
    have hsmall : Real.exp ((0.0126558 : ℝ) / 16) ≤ 1 / (1 - 0.0126558 / 16) := by
      have hpos := Real.exp_pos ((0.0126558 : ℝ) / 16)
      have h := Real.add_one_le_exp (-((0.0126558 : ℝ) / 16))
      rw [Real.exp_neg] at h
      rw [le_div_iff₀ (by norm_num : (0 : ℝ) < 1 - 0.0126558 / 16)]
      have h2 := mul_le_mul_of_nonneg_right h hpos.le
      rw [inv_mul_cancel₀ (ne_of_gt hpos)] at h2
      nlinarith [h2]
    have hU : Real.exp 0.0126558 ≤ (1 / (1 - (0.0126558 : ℝ) / 16)) ^ (16 : ℕ) := by
      have he : Real.exp (0.0126558 : ℝ)
          = Real.exp ((0.0126558 : ℝ) / 16) ^ (16 : ℕ) := by
        rw [← Real.exp_nat_mul]; norm_num
      rw [he]
      exact pow_le_pow_left₀ (Real.exp_pos _).le hsmall 16
    calc 8001 * Real.exp 0.0126558
        ≤ 8001 * ((1 / (1 - (0.0126558 : ℝ) / 16)) ^ (16 : ℕ)) := by
          nlinarith [hU]
      _ < (2.7182818283 : ℝ) ^ (9 : ℕ) := by norm_num
      _ < Real.exp 9 := hL9

/-- C4 (amended): the derived grid length is two plus the FLOOR of the
log-ratio over the step: nz = 2 + ⌊ln((1+zstart)/(1+zend))/dlna⌋ (the
code computes floor(2 + log-ratio/dlna), not two plus the ceiling). -/
theorem C4_nz_two_plus_floor (zstart zend dlna : ℝ) :
    nz_formula zstart zend dlna
      = 2 + ⌊Real.log ((1 + zstart) / (1 + zend)) / dlna⌋ := by
  rw [nz_formula,
    show (2 : ℝ) + Real.log ((1 + zstart) / (1 + zend)) / dlna
      = Real.log ((1 + zstart) / (1 + zend)) / dlna + ((2 : ℤ) : ℝ) by
        push_cast; ring,
    Int.floor_add_int]
  ring

/-- Counterexample to C4 as stated: at the constructed grid constants
(zstart = 8000, zend = 0, dlna = 8.49e-5) the code's formula gives
nz = 105859 while 2 + ⌈log-ratio/dlna⌉ = 105860. -/
theorem C4_nz_not_two_plus_ceil :
    nz_formula 8000 0 8.49e-5 = 105859
    ∧ 2 + ⌈Real.log ((1 + (8000 : ℝ)) / (1 + 0)) / 8.49e-5⌉ = 105860
    ∧ nz_formula 8000 0 8.49e-5
        ≠ 2 + ⌈Real.log ((1 + (8000 : ℝ)) / (1 + 0)) / 8.49e-5⌉ := by
  have hb := log_8001_bounds
  have harg : Real.log ((1 + (8000 : ℝ)) / (1 + 0)) = Real.log 8001 := by
    norm_num
  have hlo : (105857 : ℝ) < Real.log 8001 / 8.49e-5 := by
    rw [lt_div_iff₀ (by norm_num : (0 : ℝ) < 8.49e-5)]
    nlinarith [hb.1]
  have hhi : Real.log 8001 / 8.49e-5 < 105858 := by
    rw [div_lt_iff₀ (by norm_num : (0 : ℝ) < 8.49e-5)]
    nlinarith [hb.2]
  have h1 : nz_formula 8000 0 8.49e-5 = 105859 := by
    rw [nz_formula, harg, Int.floor_eq_iff]
    constructor
    · push_cast; linarith
    · push_cast; linarith
  have h2 : ⌈Real.log 8001 / 8.49e-5⌉ = (105858 : ℤ) := by
    rw [Int.ceil_eq_iff]
    constructor
    · push_cast; linarith
    · push_cast; linarith
  refine ⟨h1, by rw [harg, h2]; norm_num, ?_⟩
  rw [h1, harg, h2]
  norm_num

/-- The middle injection branch evaluated at z = 2500 equals the high-z
constant branch: log((1+2500)/2501) = log 1 = 0. -/
theorem p_ann_mid_2500 (param : REC_COSMOPARAMS) :
    p_ann_mid param 2500 = p_ann_high param := by
  rw [p_ann_mid, p_ann_high]
  have h : ((1 : ℝ) + 2500) / 2501 = 1 := by norm_num
  rw [h, Real.log_one]
  congr 1
  ring_nf

/-- The middle injection branch evaluated at z = 30 equals the frozen
z ≤ 30 branch: (1+30)/2501 = 31/2501. -/
theorem p_ann_mid_30 (param : REC_COSMOPARAMS) :
    p_ann_mid param 30 = p_ann_low param := by
  rw [p_ann_mid, p_ann_low]
  norm_num

/-- The middle injection branch is continuous at every z > −1. -/
theorem p_ann_mid_continuousAt (param : REC_COSMOPARAMS) (z0 : ℝ)
    (h : -1 < z0) : ContinuousAt (p_ann_mid param) z0 := by
  have hpos : (0 : ℝ) < (1 + z0) / 2501 := by
    apply div_pos <;> linarith
  have harg : ContinuousAt (fun z : ℝ => (1 + z) / 2501) z0 :=
    (continuousAt_const.add continuousAt_id).div_const 2501
  have hlog : ContinuousAt (fun z : ℝ => Real.log ((1 + z) / 2501)) z0 :=
    harg.log hpos.ne'
  exact continuousAt_const.mul
    ((continuousAt_const.mul ((hlog.mul hlog).sub continuousAt_const)).rexp)

/-- The piecewise annihilation parameter is continuous at z = 2500. -/
theorem p_annihilation_continuousAt_2500 (param : REC_COSMOPARAMS) :
    ContinuousAt (p_annihilation_at_z param) 2500 := by
  rw [← continuousWithinAt_univ, ← Set.Iic_union_Ici (a := (2500 : ℝ)),
    continuousWithinAt_union]
  constructor
  · have hmem : Set.Iic (2500 : ℝ) ∩ Set.Ioi 30
        ∈ nhdsWithin (2500 : ℝ) (Set.Iic 2500) :=
      inter_mem_nhdsWithin _ (isOpen_Ioi.mem_nhds (by norm_num))
    have hioc : ContinuousWithinAt (p_annihilation_at_z param)
        (Set.Iic (2500 : ℝ) ∩ Set.Ioi 30) 2500 := by
      have hg2 : ∀ y ∈ Set.Iic (2500 : ℝ) ∩ Set.Ioi 30,
          p_annihilation_at_z param y = p_ann_mid param y := by
        intro y hy
        have h1 : ¬(2500 < y) := not_lt.mpr hy.1
        have h2 : (30 : ℝ) < y := hy.2
        simp [p_annihilation_at_z, h1, h2]
      refine ContinuousWithinAt.congr
        ((p_ann_mid_continuousAt param 2500 (by norm_num)).continuousWithinAt)
        hg2 ?_
      norm_num [p_annihilation_at_z]
    exact hioc.mono_of_mem_nhdsWithin hmem
  · have hg : ∀ y ∈ Set.Ici (2500 : ℝ),
        p_annihilation_at_z param y = p_ann_high param := by
      intro y hy
      rcases lt_or_eq_of_le hy with hlt | heq
      · simp [p_annihilation_at_z, hlt]
      · rw [← heq]
        have hmid := p_ann_mid_2500 param
        norm_num [p_annihilation_at_z]
        rw [← hmid]
    exact continuousWithinAt_const.congr hg (hg 2500 Set.left_mem_Ici)

/-- The piecewise annihilation parameter is continuous at z = 30. -/
theorem p_annihilation_continuousAt_30 (param : REC_COSMOPARAMS) :
    ContinuousAt (p_annihilation_at_z param) 30 := by
  rw [← continuousWithinAt_univ, ← Set.Iic_union_Ici (a := (30 : ℝ)),
    continuousWithinAt_union]
  constructor
  · have hg : ∀ y ∈ Set.Iic (30 : ℝ),
        p_annihilation_at_z param y = p_ann_low param := by
      intro y hy
      have h1 : ¬(2500 < y) := by
        simp only [Set.mem_Iic] at hy
        push_neg
        linarith
      have h2 : ¬(30 < y) := not_lt.mpr hy
      simp [p_annihilation_at_z, h1, h2]
    exact continuousWithinAt_const.congr hg (hg 30 Set.right_mem_Iic)
  · have hmem : Set.Ici (30 : ℝ) ∩ Set.Iio 2500
        ∈ nhdsWithin (30 : ℝ) (Set.Ici 30) :=
      inter_mem_nhdsWithin _ (isOpen_Iio.mem_nhds (by norm_num))
    have hico : ContinuousWithinAt (p_annihilation_at_z param)
        (Set.Ici (30 : ℝ) ∩ Set.Iio 2500) 30 := by
      have hg2 : ∀ y ∈ Set.Ici (30 : ℝ) ∩ Set.Iio 2500,
          p_annihilation_at_z param y = p_ann_mid param y := by
        intro y hy
        have h1 : ¬(2500 < y) := not_lt.mpr hy.2.le
        rcases lt_or_eq_of_le hy.1 with hlt | heq
        · simp [p_annihilation_at_z, h1, hlt]
        · rw [← heq]
          rw [p_ann_mid_30 param]
          norm_num [p_annihilation_at_z]
      refine ContinuousWithinAt.congr
        ((p_ann_mid_continuousAt param 30 (by norm_num)).continuousWithinAt)
        hg2 ?_
      rw [p_ann_mid_30 param]
      norm_num [p_annihilation_at_z]
    exact hico.mono_of_mem_nhdsWithin hmem

/-- Continuity of the injection rate follows from continuity of the
annihilation parameter (the remaining factors are polynomial). -/
theorem eir_continuousAt (param : REC_COSMOPARAMS) (z0 : ℝ)
    (hp : ContinuousAt (p_annihilation_at_z param) z0) :
    ContinuousAt (energy_injection_rate param) z0 := by
  unfold energy_injection_rate
  exact ((continuousAt_const.mul
      ((continuousAt_const.add continuousAt_id).pow 6)).mul hp).add
    ((continuousAt_const.mul
      ((continuousAt_const.add continuousAt_id).pow 3)).mul continuousAt_const)

/-- C6: the annihilation efficiency branches of energy_injection_rate
agree exactly at both regime boundaries — the 30 < z ≤ 2500 branch at
z = 2500 equals the z > 2500 constant branch, and at z = 30 it equals
the frozen z ≤ 30 branch — and consequently the total injection rate is
continuous at z = 2500 and at z = 30. -/
theorem C6_injection_rate_continuous (param : REC_COSMOPARAMS) :
    p_ann_mid param 2500 = p_ann_high param
    ∧ p_ann_mid param 30 = p_ann_low param
    ∧ ContinuousAt (energy_injection_rate param) 2500
    ∧ ContinuousAt (energy_injection_rate param) 30 :=
  ⟨p_ann_mid_2500 param, p_ann_mid_30 param,
   eir_continuousAt param 2500 (p_annihilation_continuousAt_2500 param),
   eir_continuousAt param 30 (p_annihilation_continuousAt_30 param)⟩

/-- A bounded loop never moves the index backwards, and advances it at
most fuel times. -/
theorem loopAux_fst_le (cond : ℕ → BuildState → Prop)
    (body : ℕ → BuildState → BuildState) (fuel iz : ℕ) (s : BuildState) :
    iz ≤ (loopAux cond body fuel iz s).1
    ∧ (loopAux cond body fuel iz s).1 ≤ iz + fuel := by
  induction fuel generalizing iz s with
  | zero => simp [loopAux]
  | succ n ih =>
    simp only [loopAux]
    split
    · have := ih (iz + 1) (body iz s)
      omega
    · simp

/-- If every body call appends its index to both write logs, a bounded
loop extends the logs by the contiguous index range it traverses. -/
theorem loopAux_logs (cond : ℕ → BuildState → Prop)
    (body : ℕ → BuildState → BuildState)
    (hb : ∀ i s, (body i s).xeLog = s.xeLog ++ [i]
        ∧ (body i s).TmLog = s.TmLog ++ [i])
    (fuel iz : ℕ) (s : BuildState) :
    (loopAux cond body fuel iz s).2.xeLog
      = s.xeLog ++ List.range' iz ((loopAux cond body fuel iz s).1 - iz)
    ∧ (loopAux cond body fuel iz s).2.TmLog
      = s.TmLog ++ List.range' iz ((loopAux cond body fuel iz s).1 - iz) := by
  induction fuel generalizing iz s with
  | zero => simp [loopAux]
  | succ n ih =>
    simp only [loopAux]
    split
    · have hle := loopAux_fst_le cond body n (iz + 1) (body iz s)
      have ihs := ih (iz + 1) (body iz s)
      have harith : (loopAux cond body n (iz + 1) (body iz s)).1 - iz
          = ((loopAux cond body n (iz + 1) (body iz s)).1 - (iz + 1)) + 1 := by
        omega
      rw [harith, List.range'_succ]
      constructor
      · rw [ihs.1, (hb iz s).1]
        simp [List.append_assoc]
      · rw [ihs.2, (hb iz s).2]
        simp [List.append_assoc]
    · simp

/-- With the always-true condition the loop spends all its fuel. -/
theorem loopAux_true_fst (body : ℕ → BuildState → BuildState) (fuel iz : ℕ)
    (s : BuildState) :
    (loopAux (fun _ _ => True) body fuel iz s).1 = iz + fuel := by
  induction fuel generalizing iz s with
  | zero => simp [loopAux]
  | succ n ih =>
    simp only [loopAux]
    split_ifs with h
    · rw [ih (iz + 1) (body iz s)]
      omega
    · exact absurd trivial h

/-- A stage loop started at iz ≤ nz with write logs equal to
[0, …, iz−1] stops at some iz ≤ iz' ≤ nz with write logs [0, …, iz'−1]. -/
theorem stageLoop_covers (nz : ℕ) (cond : ℕ → BuildState → Prop)
    (body : ℕ → BuildState → BuildState)
    (hb : ∀ i s, (body i s).xeLog = s.xeLog ++ [i]
        ∧ (body i s).TmLog = s.TmLog ++ [i])
    (iz : ℕ) (s : BuildState) (hiz : iz ≤ nz)
    (hxe : s.xeLog = List.range' 0 iz) (hTm : s.TmLog = List.range' 0 iz) :
    iz ≤ (stageLoop nz cond body iz s).1
    ∧ (stageLoop nz cond body iz s).1 ≤ nz
    ∧ (stageLoop nz cond body iz s).2.xeLog
        = List.range' 0 (stageLoop nz cond body iz s).1
    ∧ (stageLoop nz cond body iz s).2.TmLog
        = List.range' 0 (stageLoop nz cond body iz s).1 := by
  unfold stageLoop
  have h1 := loopAux_fst_le cond body (nz - iz) iz s
  have h2 := loopAux_logs cond body hb (nz - iz) iz s
  have hrange : List.range' 0 iz
      ++ List.range' iz ((loopAux cond body (nz - iz) iz s).1 - iz)
      = List.range' 0 (loopAux cond body (nz - iz) iz s).1 := by
    have h := List.range'_append 0 iz
      ((loopAux cond body (nz - iz) iz s).1 - iz) 1
    simp only [one_mul, zero_add] at h
    rw [h]
    congr 1
    omega
  refine ⟨h1.1, by omega, ?_, ?_⟩
  · rw [h2.1, hxe, hrange]
  · rw [h2.2, hTm, hrange]

/-- Every stage body appends its index to both write logs. -/
theorem bodies_append_logs (ext : Externals) (param : REC_COSMOPARAMS) :
    (∀ i s, (body1 ext param i s).xeLog = s.xeLog ++ [i]
        ∧ (body1 ext param i s).TmLog = s.TmLog ++ [i])
    ∧ (∀ i s, (body2 ext param i s).xeLog = s.xeLog ++ [i]
        ∧ (body2 ext param i s).TmLog = s.TmLog ++ [i])
    ∧ (∀ i s, (body3 ext param i s).xeLog = s.xeLog ++ [i]
        ∧ (body3 ext param i s).TmLog = s.TmLog ++ [i])
    ∧ (∀ i s, (body4 ext param i s).xeLog = s.xeLog ++ [i]
        ∧ (body4 ext param i s).TmLog = s.TmLog ++ [i])
    ∧ (∀ i s, (body5 ext param i s).xeLog = s.xeLog ++ [i]
        ∧ (body5 ext param i s).TmLog = s.TmLog ++ [i])
    ∧ ∀ fs i s, (bodyNext2 ext param fs i s).xeLog = s.xeLog ++ [i]
        ∧ (bodyNext2 ext param fs i s).TmLog = s.TmLog ++ [i] :=
  ⟨fun _ _ => ⟨rfl, rfl⟩, fun _ _ => ⟨rfl, rfl⟩, fun _ _ => ⟨rfl, rfl⟩,
   fun _ _ => ⟨rfl, rfl⟩, fun _ _ => ⟨rfl, rfl⟩, fun _ _ _ => ⟨rfl, rfl⟩⟩

/-- Unfolding equations of the stage chain (each is definitional). -/
theorem bh_stage_defs (ext : Externals) (param : REC_COSMOPARAMS) :
    bh_stage1 ext param
      = stageLoop param.nz cond1 (body1 ext param) 0 (bh_init param)
    ∧ bh_stage2 ext param
      = stageLoop param.nz cond2 (body2 ext param) (bh_stage1 ext param).1
          (resetDelta 0 (bh_stage1 ext param).2)
    ∧ bh_stage3 ext param
      = stageLoop param.nz cond3 (body3 ext param) (bh_stage2 ext param).1
          (resetDelta 1
            (seedXe param (bh_stage2 ext param).1 (bh_stage2 ext param).2))
    ∧ bh_stage4 ext param
      = stageLoop param.nz cond4 (body4 ext param) (bh_stage3 ext param).1
          (resetDelta 0 (bh_stage3 ext param).2)
    ∧ bh_stage5 ext param
      = stageLoop param.nz (cond5 param) (body5 ext param)
          (bh_stage4 ext param).1
          (seedXe param (bh_stage4 ext param).1 (bh_stage4 ext param).2)
    ∧ bh_stage6 ext param
      = stageLoop param.nz cond6 (bodyNext2 ext param FUNC_H2G)
          (bh_stage5 ext param).1
          (seedTm param (bh_stage5 ext param).1 (bh_stage5 ext param).2)
    ∧ bh_stage7 ext param
      = stageLoop param.nz cond7 (bodyNext2 ext param FUNC_HMLA)
          (bh_stage6 ext param).1 (bh_stage6 ext param).2
    ∧ rec_build_history ext param
      = stageLoop param.nz (fun _ _ => True)
          (bodyNext2 ext param FUNC_PEEBLES)
          (bh_stage7 ext param).1 (bh_stage7 ext param).2 :=
  ⟨rfl, rfl, rfl, rfl, rfl, rfl, rfl, rfl⟩

/-- The inter-stage glue never touches the write logs. -/
theorem glue_preserves_logs (param : REC_COSMOPARAMS) (v : ℝ) (iz : ℕ)
    (s : BuildState) :
    (resetDelta v s).xeLog = s.xeLog ∧ (resetDelta v s).TmLog = s.TmLog
    ∧ (seedXe param iz s).xeLog = s.xeLog
    ∧ (seedXe param iz s).TmLog = s.TmLog
    ∧ (seedTm param iz s).xeLog = s.xeLog
    ∧ (seedTm param iz s).TmLog = s.TmLog
    ∧ (bh_init param).xeLog = List.range' 0 0
    ∧ (bh_init param).TmLog = List.range' 0 0 :=
  ⟨rfl, rfl, rfl, rfl, rfl, rfl, rfl, rfl⟩

/-- A stage loop whose condition is the constant True spends all its
fuel and stops exactly at nz. -/
theorem stageLoop_true_fst (nz : ℕ) (body : ℕ → BuildState → BuildState)
    (iz : ℕ) (s : BuildState) (h : iz ≤ nz) :
    (stageLoop nz (fun _ _ => True) body iz s).1 = nz := by
  unfold stageLoop
  rw [loopAux_true_fst]
  omega

/-- C3: for every parameter record with nz ≥ 5 and arbitrary external
kernels, rec_build_history terminates with its loop index equal to nz
and writes each index 0, …, nz−1 of both output arrays exactly once in
strictly increasing order (write log = [0, …, nz−1] for xe and for Tm),
whatever the stages' physical exit tests do. -/
theorem C3_history_fully_populated (ext : Externals)
    (param : REC_COSMOPARAMS) (hnz : 5 ≤ param.nz) :
    (rec_build_history ext param).1 = param.nz
    ∧ (rec_build_history ext param).2.xeLog = List.range param.nz
    ∧ (rec_build_history ext param).2.TmLog = List.range param.nz := by
  obtain ⟨hb1, hb2, hb3, hb4, hb5, hbn⟩ := bodies_append_logs ext param
  obtain ⟨hd1, hd2, hd3, hd4, hd5, hd6, hd7, hd8⟩ := bh_stage_defs ext param
  have h1 := stageLoop_covers param.nz cond1 (body1 ext param) hb1 0
    (bh_init param) (Nat.zero_le _) (glue_preserves_logs param 0 0 (bh_init param)).2.2.2.2.2.2.1
    (glue_preserves_logs param 0 0 (bh_init param)).2.2.2.2.2.2.2
  rw [← hd1] at h1
  have h2 := stageLoop_covers param.nz cond2 (body2 ext param) hb2
    (bh_stage1 ext param).1 (resetDelta 0 (bh_stage1 ext param).2) h1.2.1
    (by rw [(glue_preserves_logs param 0 0 _).1]; exact h1.2.2.1)
    (by rw [(glue_preserves_logs param 0 0 _).2.1]; exact h1.2.2.2)
  rw [← hd2] at h2
  have h3 := stageLoop_covers param.nz cond3 (body3 ext param) hb3
    (bh_stage2 ext param).1
    (resetDelta 1 (seedXe param (bh_stage2 ext param).1 (bh_stage2 ext param).2))
    h2.2.1
    (by rw [(glue_preserves_logs param 1 0 _).1,
        (glue_preserves_logs param 1 (bh_stage2 ext param).1 _).2.2.1]
        exact h2.2.2.1)
    (by rw [(glue_preserves_logs param 1 0 _).2.1,
        (glue_preserves_logs param 1 (bh_stage2 ext param).1 _).2.2.2.1]
        exact h2.2.2.2)
  rw [← hd3] at h3
  have h4 := stageLoop_covers param.nz cond4 (body4 ext param) hb4
    (bh_stage3 ext param).1 (resetDelta 0 (bh_stage3 ext param).2) h3.2.1
    (by rw [(glue_preserves_logs param 0 0 _).1]; exact h3.2.2.1)
    (by rw [(glue_preserves_logs param 0 0 _).2.1]; exact h3.2.2.2)
  rw [← hd4] at h4
  have h5 := stageLoop_covers param.nz (cond5 param) (body5 ext param) hb5
    (bh_stage4 ext param).1
    (seedXe param (bh_stage4 ext param).1 (bh_stage4 ext param).2) h4.2.1
    (by rw [(glue_preserves_logs param 0 (bh_stage4 ext param).1 _).2.2.1]
        exact h4.2.2.1)
    (by rw [(glue_preserves_logs param 0 (bh_stage4 ext param).1 _).2.2.2.1]
        exact h4.2.2.2)
  rw [← hd5] at h5
  have h6 := stageLoop_covers param.nz cond6 (bodyNext2 ext param FUNC_H2G)
    (hbn FUNC_H2G) (bh_stage5 ext param).1
    (seedTm param (bh_stage5 ext param).1 (bh_stage5 ext param).2) h5.2.1
    (by rw [(glue_preserves_logs param 0 (bh_stage5 ext param).1 _).2.2.2.2.1]
        exact h5.2.2.1)
    (by rw [(glue_preserves_logs param 0 (bh_stage5 ext param).1 _).2.2.2.2.2.1]
        exact h5.2.2.2)
  rw [← hd6] at h6
  have h7 := stageLoop_covers param.nz cond7 (bodyNext2 ext param FUNC_HMLA)
    (hbn FUNC_HMLA) (bh_stage6 ext param).1 (bh_stage6 ext param).2
    h6.2.1 h6.2.2.1 h6.2.2.2
  rw [← hd7] at h7
  have h8 := stageLoop_covers param.nz (fun _ _ => True)
    (bodyNext2 ext param FUNC_PEEBLES) (hbn FUNC_PEEBLES)
    (bh_stage7 ext param).1 (bh_stage7 ext param).2
    h7.2.1 h7.2.2.1 h7.2.2.2
  rw [← hd8] at h8
  have hfin : (rec_build_history ext param).1 = param.nz := by
    rw [hd8]
    exact stageLoop_true_fst param.nz (bodyNext2 ext param FUNC_PEEBLES)
      (bh_stage7 ext param).1 (bh_stage7 ext param).2 h7.2.1
  refine ⟨hfin, ?_, ?_⟩
  · rw [List.range_eq_range', ← hfin]
    exact h8.2.2.1
  · rw [List.range_eq_range', ← hfin]
    exact h8.2.2.2

/-- Witness for C3 on the concrete grid length 5 with zero kernels: the
machine stops at index 5 and both write logs are [0, 1, 2, 3, 4]. -/
theorem C3_history_fully_populated_witness :
    5 ≤ paramNz5.nz
    ∧ (rec_build_history trivialExternals paramNz5).1 = paramNz5.nz
    ∧ (rec_build_history trivialExternals paramNz5).2.xeLog
        = List.range paramNz5.nz
    ∧ (rec_build_history trivialExternals paramNz5).2.TmLog
        = List.range paramNz5.nz := by
  have h := C3_history_fully_populated trivialExternals paramNz5
    (by norm_num [paramNz5])
  exact ⟨by norm_num [paramNz5], h.1, h.2.1, h.2.2⟩
